import Mathlib

/-!
Verification of the Todo App's authentication / authorization core
(`auth.py`, `main.py`, `models.py`, `database_models.py`).

Python strings are modelled as `List Char`; the SQL store is modelled as a
Lean list threaded explicitly through the handlers; the SHA-256 hex digest
and the JWT HMAC are external cryptographic primitives and are modelled as
function parameters (the code only ever uses them as deterministic black
boxes); randomness (`secrets.token_hex`) is modelled by passing the drawn
salt as an explicit argument; wall-clock time is an explicit `Int` of Unix
seconds.
-/

namespace TodoApp

/-- A Python `str`, modelled as its list of characters. -/
abbrev Str := List Char

/-- Python's `s.split("$")`: splits on every `$`, keeping empty fields.
`"".split("$") = [""]`, `"a$b$c".split("$") = ["a","b","c"]`. -/
def splitOnDollar : Str → List Str
  | [] => [[]]
  | c :: cs =>
    if c = '$' then [] :: splitOnDollar cs
    else
      match splitOnDollar cs with
      | [] => [[c]]
      | p :: ps => (c :: p) :: ps

/-- `auth.hash_password`, with the salt drawn by `secrets.token_hex(16)`
passed explicitly and the SHA-256 hex digest as a parameter:
returns `f"{salt}${sha256((salt+password)).hexdigest()}"`. -/
def hash_password (sha256hex : Str → Str) (salt : Str) (password : Str) : Str :=
  salt ++ '$' :: sha256hex (salt ++ password)

/-- `auth.verify_password`: `salt, stored_hash = hashed_password.split("$")`
(raising `ValueError`, caught and turned into `False`, unless the split has
exactly two fields), then constant-time comparison of the recomputed digest
with the stored one. -/
def verify_password (sha256hex : Str → Str) (plain_password : Str)
    (hashed_password : Str) : Bool :=
  match splitOnDollar hashed_password with
  | [salt, stored_hash] => sha256hex (salt ++ plain_password) == stored_hash
  | _ => false

/-- `database_models.UserDB`: one row of the `users` table.
`created_at` is a Unix timestamp. -/
structure UserDB where
  id : Nat
  username : Str
  hashed_password : Str
  role : Str
  created_at : Int
deriving DecidableEq

/-- `database_models.TaskDB`: one row of the `task` table. -/
structure TaskDB where
  id : Nat
  name : Str
  status : Str
  created_at : Int
  user_id : Nat
deriving DecidableEq

/-- A `fastapi.HTTPException` as surfaced to the client: status code and
detail message (the `WWW-Authenticate` header carries no information the
claims are about). -/
structure HTTPError where
  status_code : Nat
  detail : Str
deriving DecidableEq

/-- The `credentials_exception` constant of `auth.get_current_user`. -/
def credentialsException : HTTPError :=
  ⟨401, "Could not validate credentials".data⟩

/-- The expired-token error of `auth.get_current_user`. -/
def expiredTokenError : HTTPError :=
  ⟨401, "Token has expired".data⟩

/-- The login failure error of `main.login`. -/
def invalidCredentials : HTTPError :=
  ⟨401, "Invalid credentials".data⟩

/-- The duplicate-registration error of `main.register_user`. -/
def usernameTaken : HTTPError :=
  ⟨400, "Username already registered".data⟩

/-- The 404 error of the single-task endpoints. -/
def taskNotFound : HTTPError :=
  ⟨404, "Task not found".data⟩

/-- The 403 error of `main.get_task_by_id`. -/
def forbiddenView : HTTPError :=
  ⟨403, "Not authorized to view this task".data⟩

/-- The 403 error of `main.update_task`. -/
def forbiddenUpdate : HTTPError :=
  ⟨403, "Not authorized to update this task".data⟩

/-- The 403 error of `main.delete_task`. -/
def forbiddenDelete : HTTPError :=
  ⟨403, "Not authorized to delete this task".data⟩

/-- The claim set placed in a token by `main.login`:
`{"sub": username, "role": role, "user_id": id}`. `sub` is optional because
`get_current_user` handles `payload.get("sub") is None`. -/
structure Claims where
  sub : Option Str
  role : Str
  user_id : Nat
deriving DecidableEq

/-- A decoded JWT: the claim payload, the `exp` claim (Unix seconds, added
by `create_access_token`), and the HMAC signature over payload and `exp`. -/
structure Token where
  claims : Claims
  exp : Int
  sig : Nat
deriving DecidableEq

/-- PyJWT's two failure kinds as caught by `get_current_user`:
`jwt.ExpiredSignatureError` and the catch-all `jwt.InvalidTokenError`. -/
inductive DecodeError where
  | ExpiredToken : DecodeError
  | InvalidToken : DecodeError
deriving DecidableEq

/-- `auth.ACCESS_TOKEN_EXPIRE_MIN = 60`. -/
def ACCESS_TOKEN_EXPIRE_MIN : Int := 60

/-- `auth.create_access_token`: copies the claims, sets
`exp = now + timedelta(minutes=ACCESS_TOKEN_EXPIRE_MIN)` and signs the
whole payload with the process-wide key. `hmac` models the HS256 primitive
used by `jwt.encode`; `now` is `datetime.now(timezone.utc)` in Unix
seconds, passed explicitly. -/
def create_access_token (hmac : Nat → Claims → Int → Nat) (key : Nat)
    (now : Int) (data : Claims) : Token :=
  let expire := now + ACCESS_TOKEN_EXPIRE_MIN * 60
  ⟨data, expire, hmac key data expire⟩

/-- `jwt.decode(jwt=token, key=SECRET_KEY, algorithms=[ALGORITHM])`:
verifies the signature (failure raises `jwt.InvalidTokenError`), then
rejects the token as expired when `now` has reached the `exp` claim
(raising `jwt.ExpiredSignatureError`); otherwise returns the payload. -/
def jwt_decode (hmac : Nat → Claims → Int → Nat) (key : Nat)
    (tok : Token) (now : Int) : Except DecodeError Claims :=
  if tok.sig = hmac key tok.claims tok.exp then
    if tok.exp ≤ now then .error .ExpiredToken
    else .ok tok.claims
  else .error .InvalidToken

/-- `auth.get_user_by_username`:
`db.query(UserDB).filter(UserDB.username == username).first()`. -/
def get_user_by_username (db : List UserDB) (username : Str) : Option UserDB :=
  db.find? (fun u => u.username == username)

/-- `auth.authenticate_user`: `None` when the username is absent or the
password does not verify; the user row otherwise. -/
def authenticate_user (sha256hex : Str → Str) (db : List UserDB)
    (username password : Str) : Option UserDB :=
  match get_user_by_username db username with
  | none => none
  | some user =>
    if verify_password sha256hex password user.hashed_password then some user
    else none

/-- `auth.get_current_user`: decodes the bearer token, then requires a
`sub` claim and re-resolves it in the store; every failure except token
expiry raises the same `credentials_exception`. -/
def get_current_user (hmac : Nat → Claims → Int → Nat) (key : Nat)
    (db : List UserDB) (tok : Token) (now : Int) : Except HTTPError UserDB :=
  match jwt_decode hmac key tok now with
  | .error .ExpiredToken => .error expiredTokenError
  | .error .InvalidToken => .error credentialsException
  | .ok payload =>
    match payload.sub with
    | none => .error credentialsException
    | some username =>
      match get_user_by_username db username with
      | none => .error credentialsException
      | some user => .ok user

/-- `main.login` (`POST /token`): authenticates, then returns
`{"access_token": token, "token_type": "bearer"}`. -/
def login (sha256hex : Str → Str) (hmac : Nat → Claims → Int → Nat)
    (key : Nat) (now : Int) (db : List UserDB) (username password : Str) :
    Except HTTPError (Token × Str) :=
  match authenticate_user sha256hex db username password with
  | none => .error invalidCredentials
  | some user =>
    .ok (create_access_token hmac key now
          ⟨some user.username, user.role, user.id⟩, "bearer".data)

/-- `models.UserCreate`: the registration request body. -/
structure UserCreate where
  username : Str
  password : Str
  role : Str
deriving DecidableEq

/-- The pydantic validation on `models.UserCreate`: username 3-50 chars of
`[a-zA-Z0-9_]`, password 6-100 chars, role matching `^(user|admin)$`. -/
def validUserCreate (b : UserCreate) : Prop :=
  3 ≤ b.username.length ∧ b.username.length ≤ 50 ∧
  (∀ c ∈ b.username, ('a' ≤ c ∧ c ≤ 'z') ∨ ('A' ≤ c ∧ c ≤ 'Z') ∨
    ('0' ≤ c ∧ c ≤ '9') ∨ c = '_') ∧
  6 ≤ b.password.length ∧ b.password.length ≤ 100 ∧
  (b.role = "user".data ∨ b.role = "admin".data)

instance (b : UserCreate) : Decidable (validUserCreate b) := by
  unfold validUserCreate
  exact inferInstance

/-- `models.User`: the response model of `/register` and `/me` — id,
username, role and creation time, with no password-hash field at all. -/
structure UserResponse where
  id : Nat
  username : Str
  role : Str
  created_at : Int
deriving DecidableEq

/-- The projection FastAPI applies when serialising a `UserDB` row through
`response_model=User`: every field of `models.User`, and nothing else —
in particular `hashed_password` is dropped. -/
def toUserResponse (u : UserDB) : UserResponse :=
  ⟨u.id, u.username, u.role, u.created_at⟩

/-- The autoincrement primary key the store assigns on insert. -/
def next_id (db : List UserDB) : Nat :=
  db.foldr (fun u m => max u.id m) 0 + 1

/-- `auth.create_user`: hashes the password and inserts the new row
(salt, creation instant and digest primitive passed explicitly). -/
def create_user (sha256hex : Str → Str) (salt : Str) (now : Int)
    (db : List UserDB) (username password role : Str) : UserDB × List UserDB :=
  let user : UserDB :=
    ⟨next_id db, username, hash_password sha256hex salt password, role, now⟩
  (user, db ++ [user])

/-- `main.register_user` (`POST /register`): rejects an already-registered
username with a 400 before inserting; otherwise inserts and returns the
new row serialised through `response_model=User`. The route has no
authentication dependency: no principal or token argument exists. -/
def register_user (sha256hex : Str → Str) (salt : Str) (now : Int)
    (db : List UserDB) (user_data : UserCreate) :
    Except HTTPError UserResponse × List UserDB :=
  match get_user_by_username db user_data.username with
  | some _ => (.error usernameTaken, db)
  | none =>
    let r := create_user sha256hex salt now db user_data.username
      user_data.password user_data.role
    (.ok (toUserResponse r.1), r.2)

/-- `models.TaskUpdate`: both fields optional. -/
structure TaskUpdate where
  name : Option Str
  status : Option Str
deriving DecidableEq

/-- The field-by-field mutation in `main.update_task`: only fields that
are provided are written. -/
def apply_update (db_task : TaskDB) (updated_task : TaskUpdate) : TaskDB :=
  let t1 := match updated_task.name with
    | some n => { db_task with name := n }
    | none => db_task
  match updated_task.status with
  | some s => { t1 with status := s }
  | none => t1

/-- `db.query(TaskDB).filter(TaskDB.id == id).first()`. -/
def find_task (db : List TaskDB) (id : Nat) : Option TaskDB :=
  db.find? (fun t => t.id == id)

/-- `main.get_task_by_id` (`GET /task/{id}`): 404 when absent, 403 when
`current_user.role != "admin" and db_task.user_id != current_user.id`. -/
def get_task_by_id (db : List TaskDB) (current_user : UserDB) (id : Nat) :
    Except HTTPError TaskDB :=
  match find_task db id with
  | none => .error taskNotFound
  | some db_task =>
    if current_user.role ≠ "admin".data ∧ db_task.user_id ≠ current_user.id then
      .error forbiddenView
    else .ok db_task

/-- `main.update_task` (`PUT /task/{id}`): 404 / 403 checks, then the
partial update is committed. Returns the response and the new table. -/
def update_task (db : List TaskDB) (current_user : UserDB) (id : Nat)
    (updated_task : TaskUpdate) : Except HTTPError TaskDB × List TaskDB :=
  match find_task db id with
  | none => (.error taskNotFound, db)
  | some db_task =>
    if current_user.role ≠ "admin".data ∧ db_task.user_id ≠ current_user.id then
      (.error forbiddenUpdate, db)
    else
      let t := apply_update db_task updated_task
      (.ok t, db.map (fun x => if x.id = id then t else x))

/-- `main.delete_task` (`DELETE /task/{id}`): 404 / 403 checks, then the
row is deleted and a 204 (here `Unit`) returned. -/
def delete_task (db : List TaskDB) (current_user : UserDB) (id : Nat) :
    Except HTTPError Unit × List TaskDB :=
  match find_task db id with
  | none => (.error taskNotFound, db)
  | some db_task =>
    if current_user.role ≠ "admin".data ∧ db_task.user_id ≠ current_user.id then
      (.error forbiddenDelete, db)
    else
      (.ok (), db.filter (fun x => x.id ≠ id))

/-- Modelled from the spec: the parse the spec prescribes for consumers of
the stored-hash format — split on the FIRST `$` only (Python
`hashed_password.split("$", 1)`), salt before it, digest everything after.
This is the spec-words version set against `verify_password` above. -/
def verify_password_firstSplit (sha256hex : Str → Str) (plain_password : Str)
    (hashed_password : Str) : Bool :=
  let salt := hashed_password.takeWhile (fun c => c ≠ '$')
  let rest := hashed_password.dropWhile (fun c => c ≠ '$')
  match rest with
  | [] => false
  | _ :: stored_hash => sha256hex (salt ++ plain_password) == stored_hash

theorem splitOnDollar_of_not_mem {s : Str} (h : '$' ∉ s) :
    splitOnDollar s = [s] := by
  induction s with
  | nil => rfl
  | cons c cs ih =>
    have hc : ¬ c = '$' := fun hc => h (hc ▸ List.mem_cons_self c cs)
    have hcs : '$' ∉ cs := fun hm => h (List.mem_cons_of_mem c hm)
    simp [splitOnDollar, hc, ih hcs]

theorem splitOnDollar_salt_digest {salt digest : Str}
    (hs : '$' ∉ salt) (hd : '$' ∉ digest) :
    splitOnDollar (salt ++ '$' :: digest) = [salt, digest] := by
  induction salt with
  | nil => simp [splitOnDollar, splitOnDollar_of_not_mem hd]
  | cons c cs ih =>
    have hc : ¬ c = '$' := fun hc => hs (hc ▸ List.mem_cons_self c cs)
    have hcs : '$' ∉ cs := fun hm => hs (List.mem_cons_of_mem c hm)
    simp [splitOnDollar, hc, ih hcs]

theorem splitOnDollar_length (s : Str) :
    (splitOnDollar s).length = s.count '$' + 1 := by
  induction s with
  | nil => rfl
  | cons c cs ih =>
    by_cases hc : c = '$'
    · simp [splitOnDollar, hc, ih, List.count_cons]
    · have hbeq : ¬ (c == '$') = true := by simpa using hc
      rcases hsp : splitOnDollar cs with _ | ⟨p, ps⟩
      · rw [hsp] at ih
        simp at ih
      · simp only [splitOnDollar, if_neg hc, hsp]
        rw [hsp] at ih
        simp only [List.length_cons] at ih ⊢
        simp [List.count_cons, hbeq, ih]

theorem verify_password_of_count_ne_one (sha256hex : Str → Str)
    (plain hashed : Str) (h : hashed.count '$' ≠ 1) :
    verify_password sha256hex plain hashed = false := by
  have hlen := splitOnDollar_length hashed
  unfold verify_password
  split
  · rename_i salt stored heq
    rw [heq] at hlen
    simp only [List.length_cons, List.length_nil] at hlen
    omega
  · rfl

theorem find?_append_of_none {α : Type} {p : α → Bool} {l₁ : List α}
    (l₂ : List α) (h : l₁.find? p = none) :
    (l₁ ++ l₂).find? p = l₂.find? p := by
  rw [List.find?_append, h, Option.none_or]

theorem find_task_map_replace {db : List TaskDB} {id : Nat} (t' : TaskDB)
    (ht' : t'.id = id) (h : (find_task db id).isSome) :
    find_task (db.map fun x => if x.id = id then t' else x) id = some t' := by
  induction db with
  | nil => simp [find_task] at h
  | cons a as ih =>
    by_cases ha : a.id = id
    · simp only [find_task, List.map_cons, if_pos ha, List.find?_cons]
      simp [ht']
    · have hfab : (a.id == id) = false := by simp [ha]
      have h' : (find_task as id).isSome := by
        simpa only [find_task, List.find?_cons, hfab] using h
      simpa only [find_task, List.map_cons, if_neg ha, List.find?_cons, hfab]
        using ih h'

/-- C2: for every plaintext `p`, `verify_password p (hash_password p)` is
true, and two calls of `hash_password` on `p` with independently drawn —
hence distinct — salts produce different output strings. Salts come from
`secrets.token_hex` and digests from `sha256(...).hexdigest()`, so neither
contains the `$` separator. -/
theorem C2_hash_verify_roundtrip_and_salt_freshness
    (sha256hex : Str → Str) (salt salt' p : Str)
    (hsalt : '$' ∉ salt) (hsalt' : '$' ∉ salt')
    (hsha : ∀ s, '$' ∉ sha256hex s) (hne : salt ≠ salt') :
    verify_password sha256hex p (hash_password sha256hex salt p) = true ∧
    hash_password sha256hex salt p ≠ hash_password sha256hex salt' p := by
  constructor
  · unfold verify_password hash_password
    rw [splitOnDollar_salt_digest hsalt (hsha (salt ++ p))]
    simp
  · intro heq
    have h1 := splitOnDollar_salt_digest hsalt (hsha (salt ++ p))
    have h2 := splitOnDollar_salt_digest hsalt' (hsha (salt' ++ p))
    unfold hash_password at heq
    rw [heq, h2] at h1
    injection h1 with ha _
    exact hne ha.symm

theorem C2_witness :
    verify_password (fun _ => "aa".data) ("s1".data)
      (hash_password (fun _ => "aa".data) ("ab".data) ("s1".data)) = true ∧
    hash_password (fun _ => "aa".data) ("ab".data) ("s1".data) ≠
      hash_password (fun _ => "aa".data) ("cd".data) ("s1".data) :=
  C2_hash_verify_roundtrip_and_salt_freshness (fun _ => "aa".data)
    ("ab".data) ("cd".data) ("s1".data)
    (by decide) (by decide)
    (fun _ => (by decide : ('$' : Char) ∉ "aa".data)) (by decide)

/-- C7: for every plaintext and every malformed stored hash — one not of
the form `salt$digest`, i.e. whose number of `$` separators is not exactly
one — `verify_password` returns `false` (the `ValueError` of the two-field
unpack is caught) and never raises. -/
theorem C7_verify_malformed_returns_false (sha256hex : Str → Str)
    (plain hashed : Str) (h : hashed.count '$' ≠ 1) :
    verify_password sha256hex plain hashed = false :=
  verify_password_of_count_ne_one sha256hex plain hashed h

theorem C7_witness :
    verify_password (fun _ => "aa".data) ("pw".data) ("nodollar".data) = false ∧
    verify_password (fun _ => "aa".data) ("pw".data) ("a$b$c".data) = false :=
  ⟨C7_verify_malformed_returns_false (fun _ => "aa".data) ("pw".data)
      ("nodollar".data) (by decide),
    C7_verify_malformed_returns_false (fun _ => "aa".data) ("pw".data)
      ("a$b$c".data) (by decide)⟩

/-- C9 counterexample: the claim says the verifier splits on the FIRST `$`
only. On the stored hash `"ab$cd$ef"` (two separators) the first-`$` parse
prescribed by the claim recovers salt `"ab"` and digest `"cd$ef"` and — for
a digest function returning `"cd$ef"` — verifies `true`, but the code's
`verify_password` (which splits on every `$` and then fails the two-field
unpack) returns `false`: the code does not implement the claimed parse. -/
theorem C9_counterexample :
    verify_password_firstSplit (fun _ => "cd$ef".data) ("pw".data)
      ("ab$cd$ef".data) = true ∧
    verify_password (fun _ => "cd$ef".data) ("pw".data)
      ("ab$cd$ef".data) = false := by
  constructor
  · decide
  · decide

/-- C9 amended: `verify_password` splits the stored hash on EVERY `$`;
for a stored hash containing at least one `$`, the two-field unpack
succeeds only when exactly one `$` is present — then the recovered salt is
the text before the `$` and the digest the text after it, and verification
compares the recomputed digest with the stored one — while a stored hash
containing more than one `$` fails the unpack and verification returns
`false`. -/
theorem C9_split_requires_exactly_one_dollar (sha256hex : Str → Str)
    (plain salt digest : Str) (hs : '$' ∉ salt) (hd : '$' ∉ digest) :
    verify_password sha256hex plain (salt ++ '$' :: digest) =
      (sha256hex (salt ++ plain) == digest) ∧
    ∀ hashed : Str, 2 ≤ hashed.count '$' →
      verify_password sha256hex plain hashed = false := by
  constructor
  · unfold verify_password
    rw [splitOnDollar_salt_digest hs hd]
  · intro hashed hcount
    exact verify_password_of_count_ne_one sha256hex plain hashed (by omega)

theorem C9_witness :
    verify_password (fun _ => "zz".data) ("pw".data)
      (("ab".data) ++ '$' :: ("cd".data)) = (("zz".data : Str) == "cd".data) ∧
    verify_password (fun _ => "zz".data) ("pw".data) ("a$b$c".data) = false :=
  ⟨(C9_split_requires_exactly_one_dollar (fun _ => "zz".data) ("pw".data)
      ("ab".data) ("cd".data) (by decide) (by decide)).1,
    (C9_split_requires_exactly_one_dollar (fun _ => "zz".data) ("pw".data)
      ("ab".data) ("cd".data) (by decide) (by decide)).2
      ("a$b$c".data) (by decide)⟩

/-- C1: on single-task read, update and delete, for every authenticated
principal and every existing task, access is permitted if and only if the
principal's role is `admin` or the principal's id equals the task's owning
`user_id`; otherwise the operation fails with a 403 error and, for update
and delete, the task table is unchanged. -/
theorem C1_owner_or_admin (db : List TaskDB) (cu : UserDB) (id : Nat)
    (u : TaskUpdate) (t : TaskDB) (hfind : find_task db id = some t) :
    ((cu.role = "admin".data ∨ t.user_id = cu.id) →
      get_task_by_id db cu id = .ok t ∧
      (update_task db cu id u).1 = .ok (apply_update t u) ∧
      (delete_task db cu id).1 = .ok ()) ∧
    (¬ (cu.role = "admin".data ∨ t.user_id = cu.id) →
      get_task_by_id db cu id = .error forbiddenView ∧
      update_task db cu id u = (.error forbiddenUpdate, db) ∧
      delete_task db cu id = (.error forbiddenDelete, db) ∧
      forbiddenView.status_code = 403 ∧
      forbiddenUpdate.status_code = 403 ∧
      forbiddenDelete.status_code = 403) := by
  constructor
  · intro hallow
    have hcond : ¬ (cu.role ≠ "admin".data ∧ t.user_id ≠ cu.id) := by tauto
    refine ⟨?_, ?_, ?_⟩ <;>
      simp [get_task_by_id, update_task, delete_task, hfind, if_neg hcond]
  · intro hdeny
    have hcond : cu.role ≠ "admin".data ∧ t.user_id ≠ cu.id := by tauto
    refine ⟨?_, ?_, ?_, rfl, rfl, rfl⟩ <;>
      simp [get_task_by_id, update_task, delete_task, hfind, if_pos hcond]

theorem C1_witness :
    (get_task_by_id [⟨1, "Coding".data, "pending".data, 0, 7⟩]
        ⟨7, "demo".data, "h".data, "user".data, 0⟩ 1 =
      .ok ⟨1, "Coding".data, "pending".data, 0, 7⟩ ∧
      (update_task [⟨1, "Coding".data, "pending".data, 0, 7⟩]
        ⟨7, "demo".data, "h".data, "user".data, 0⟩ 1 ⟨none, none⟩).1 =
      .ok (apply_update ⟨1, "Coding".data, "pending".data, 0, 7⟩ ⟨none, none⟩) ∧
      (delete_task [⟨1, "Coding".data, "pending".data, 0, 7⟩]
        ⟨7, "demo".data, "h".data, "user".data, 0⟩ 1).1 = .ok ()) ∧
    (get_task_by_id [⟨1, "Coding".data, "pending".data, 0, 7⟩]
        ⟨8, "mallory".data, "h".data, "user".data, 0⟩ 1 =
      .error forbiddenView ∧
      update_task [⟨1, "Coding".data, "pending".data, 0, 7⟩]
        ⟨8, "mallory".data, "h".data, "user".data, 0⟩ 1 ⟨none, none⟩ =
      (.error forbiddenUpdate, [⟨1, "Coding".data, "pending".data, 0, 7⟩]) ∧
      delete_task [⟨1, "Coding".data, "pending".data, 0, 7⟩]
        ⟨8, "mallory".data, "h".data, "user".data, 0⟩ 1 =
      (.error forbiddenDelete, [⟨1, "Coding".data, "pending".data, 0, 7⟩]) ∧
      forbiddenView.status_code = 403 ∧
      forbiddenUpdate.status_code = 403 ∧
      forbiddenDelete.status_code = 403) :=
  ⟨(C1_owner_or_admin [⟨1, "Coding".data, "pending".data, 0, 7⟩]
      ⟨7, "demo".data, "h".data, "user".data, 0⟩ 1 ⟨none, none⟩
      ⟨1, "Coding".data, "pending".data, 0, 7⟩ rfl).1 (Or.inr rfl),
    (C1_owner_or_admin [⟨1, "Coding".data, "pending".data, 0, 7⟩]
      ⟨8, "mallory".data, "h".data, "user".data, 0⟩ 1 ⟨none, none⟩
      ⟨1, "Coding".data, "pending".data, 0, 7⟩ rfl).2 (by decide)⟩

/-- C10: task update is a partial, frame-preserving update — for every
authorized update, the task is updated to `apply_update`, which keeps a
field whose request value is `None` at its prior value and never changes
`id`, `user_id` or `created_at`; the updated row is what the table then
holds at that id. -/
theorem C10_partial_update_frame (db : List TaskDB) (cu : UserDB) (id : Nat)
    (u : TaskUpdate) (t : TaskDB) (hfind : find_task db id = some t)
    (hauth : cu.role = "admin".data ∨ t.user_id = cu.id) :
    (update_task db cu id u).1 = .ok (apply_update t u) ∧
    find_task (update_task db cu id u).2 id = some (apply_update t u) ∧
    (u.name = none → (apply_update t u).name = t.name) ∧
    (u.status = none → (apply_update t u).status = t.status) ∧
    (apply_update t u).id = t.id ∧
    (apply_update t u).user_id = t.user_id ∧
    (apply_update t u).created_at = t.created_at := by
  have hcond : ¬ (cu.role ≠ "admin".data ∧ t.user_id ≠ cu.id) := by tauto
  have htid : t.id = id := by
    have := List.find?_some hfind
    simpa using this
  have happly : ∀ v : TaskUpdate,
      (apply_update t v).id = t.id ∧ (apply_update t v).user_id = t.user_id ∧
      (apply_update t v).created_at = t.created_at := by
    intro v
    unfold apply_update
    rcases v with ⟨_ | n, _ | s⟩ <;> simp
  have hsnd : (update_task db cu id u).2 =
      db.map fun x => if x.id = id then apply_update t u else x := by
    simp [update_task, hfind, if_neg hcond]
  refine ⟨?_, ?_, ?_, ?_, (happly u).1, (happly u).2.1, (happly u).2.2⟩
  · simp [update_task, hfind, if_neg hcond]
  · rw [hsnd]
    exact find_task_map_replace (apply_update t u)
      ((happly u).1.trans htid) (by simp [hfind])
  · intro hn
    unfold apply_update
    rcases u with ⟨_ | n, _ | s⟩ <;> simp_all
  · intro hs
    unfold apply_update
    rcases u with ⟨_ | n, _ | s⟩ <;> simp_all

theorem C10_witness :
    (update_task [⟨1, "Coding".data, "pending".data, 5, 7⟩]
      ⟨7, "demo".data, "h".data, "user".data, 0⟩ 1
      ⟨none, some ("completed".data)⟩).1 =
      .ok (apply_update ⟨1, "Coding".data, "pending".data, 5, 7⟩
        ⟨none, some ("completed".data)⟩) ∧
    find_task (update_task [⟨1, "Coding".data, "pending".data, 5, 7⟩]
      ⟨7, "demo".data, "h".data, "user".data, 0⟩ 1
      ⟨none, some ("completed".data)⟩).2 1 =
      some (apply_update ⟨1, "Coding".data, "pending".data, 5, 7⟩
        ⟨none, some ("completed".data)⟩) ∧
    (apply_update ⟨1, "Coding".data, "pending".data, 5, 7⟩
      ⟨none, some ("completed".data)⟩).name = "Coding".data ∧
    (apply_update ⟨1, "Coding".data, "pending".data, 5, 7⟩
      ⟨none, some ("completed".data)⟩).id = 1 ∧
    (apply_update ⟨1, "Coding".data, "pending".data, 5, 7⟩
      ⟨none, some ("completed".data)⟩).user_id = 7 ∧
    (apply_update ⟨1, "Coding".data, "pending".data, 5, 7⟩
      ⟨none, some ("completed".data)⟩).created_at = 5 := by
  have h := C10_partial_update_frame
    [⟨1, "Coding".data, "pending".data, 5, 7⟩]
    ⟨7, "demo".data, "h".data, "user".data, 0⟩ 1
    ⟨none, some ("completed".data)⟩
    ⟨1, "Coding".data, "pending".data, 5, 7⟩ rfl (Or.inr rfl)
  exact ⟨h.1, h.2.1, h.2.2.1 rfl, h.2.2.2.2.1,
    h.2.2.2.2.2.1, h.2.2.2.2.2.2⟩

/-- C4: login failure does not reveal whether the username exists — when
the username is absent from the store, and equally when it is present but
the password does not verify, `POST /token` fails with the very same
error value (status 401, detail "Invalid credentials"). -/
theorem C4_login_failure_indistinguishable (sha256hex : Str → Str)
    (hmac : Nat → Claims → Int → Nat) (key : Nat) (now : Int)
    (db : List UserDB) (username password : Str)
    (h : get_user_by_username db username = none ∨
      ∃ u, get_user_by_username db username = some u ∧
        verify_password sha256hex password u.hashed_password = false) :
    login sha256hex hmac key now db username password =
      .error invalidCredentials ∧
    invalidCredentials = ⟨401, "Invalid credentials".data⟩ := by
  refine ⟨?_, rfl⟩
  unfold login authenticate_user
  rcases h with h | ⟨u, hu, hv⟩
  · rw [h]
  · rw [hu]
    simp [hv]

theorem C4_witness :
    (login (fun _ => "qq".data) (fun _ _ _ => 0) 0 0
      [⟨1, "alice".data, "s$zz".data, "user".data, 0⟩]
      ("bob".data) ("pw".data) = .error invalidCredentials ∧
      invalidCredentials = ⟨401, "Invalid credentials".data⟩) ∧
    (login (fun _ => "qq".data) (fun _ _ _ => 0) 0 0
      [⟨1, "alice".data, "s$zz".data, "user".data, 0⟩]
      ("alice".data) ("wrong".data) = .error invalidCredentials ∧
      invalidCredentials = ⟨401, "Invalid credentials".data⟩) :=
  ⟨C4_login_failure_indistinguishable (fun _ => "qq".data) (fun _ _ _ => 0)
      0 0 [⟨1, "alice".data, "s$zz".data, "user".data, 0⟩]
      ("bob".data) ("pw".data) (Or.inl (by decide)),
    C4_login_failure_indistinguishable (fun _ => "qq".data) (fun _ _ _ => 0)
      0 0 [⟨1, "alice".data, "s$zz".data, "user".data, 0⟩]
      ("alice".data) ("wrong".data)
      (Or.inr ⟨⟨1, "alice".data, "s$zz".data, "user".data, 0⟩,
        by decide, by decide⟩)⟩

/-- C6: the public registration endpoint accepts a caller-supplied role of
either `user` or `admin` and stores it verbatim — for every valid request
body whose username is free, registration succeeds and the stored user's
role is exactly the body's role (which validation only constrains to
`user` or `admin`). The route takes no principal or token: no
authentication or existing-admin approval is involved. The witness
instantiates the body with role `admin` on an empty store. -/
theorem C6_register_stores_role_verbatim (sha256hex : Str → Str)
    (salt : Str) (now : Int) (db : List UserDB) (body : UserCreate)
    (hvalid : validUserCreate body)
    (hfree : get_user_by_username db body.username = none) :
    ∃ u : UserDB,
      (register_user sha256hex salt now db body).1 = .ok (toUserResponse u) ∧
      u.role = body.role ∧
      u.username = body.username ∧
      (body.role = "user".data ∨ body.role = "admin".data) ∧
      (register_user sha256hex salt now db body).2 = db ++ [u] := by
  refine ⟨⟨next_id db, body.username,
    hash_password sha256hex salt body.password, body.role, now⟩,
    ?_, rfl, rfl, hvalid.2.2.2.2.2, ?_⟩ <;>
    simp [register_user, create_user, hfree]

theorem C6_witness :
    ∃ u : UserDB,
      (register_user (fun _ => "zz".data) ("ab".data) 0 []
        ⟨"eve".data, "secret1".data, "admin".data⟩).1 =
        .ok (toUserResponse u) ∧
      u.role = "admin".data ∧
      u.username = "eve".data ∧
      ("admin".data = ("user".data : Str) ∨
        "admin".data = ("admin".data : Str)) ∧
      (register_user (fun _ => "zz".data) ("ab".data) 0 []
        ⟨"eve".data, "secret1".data, "admin".data⟩).2 = [] ++ [u] :=
  C6_register_stores_role_verbatim (fun _ => "zz".data) ("ab".data) 0 []
    ⟨"eve".data, "secret1".data, "admin".data⟩ (by decide) (by decide)

theorem register_user_taken (sha256hex : Str → Str) (salt : Str) (now : Int)
    (db : List UserDB) (b : UserCreate) (u : UserDB)
    (h : get_user_by_username db b.username = some u) :
    register_user sha256hex salt now db b = (.error usernameTaken, db) := by
  unfold register_user
  rw [h]

/-- C8: registering the same username twice sequentially — the first call
succeeds and returns the new row serialised through `response_model=User`
(a projection with no password-hash field), the second call fails with the
400 `Username already registered` error, with the duplicate detected by
the lookup performed before insertion: the store is left exactly as the
first call left it. -/
theorem C8_duplicate_registration (sha1 sha2 : Str → Str)
    (salt1 salt2 : Str) (now1 now2 : Int) (db : List UserDB)
    (b1 b2 : UserCreate)
    (hfree : get_user_by_username db b1.username = none)
    (hsame : b2.username = b1.username) :
    ∃ u : UserDB,
      (register_user sha1 salt1 now1 db b1).1 = .ok (toUserResponse u) ∧
      register_user sha2 salt2 now2 (register_user sha1 salt1 now1 db b1).2
          b2 =
        (.error usernameTaken, (register_user sha1 salt1 now1 db b1).2) ∧
      usernameTaken = ⟨400, "Username already registered".data⟩ := by
  refine ⟨⟨next_id db, b1.username,
    hash_password sha1 salt1 b1.password, b1.role, now1⟩, ?_, ?_, rfl⟩
  · simp [register_user, create_user, hfree]
  · have hsnd : (register_user sha1 salt1 now1 db b1).2 =
        db ++ [⟨next_id db, b1.username,
          hash_password sha1 salt1 b1.password, b1.role, now1⟩] := by
      simp [register_user, create_user, hfree]
    have hlookup : get_user_by_username
        (register_user sha1 salt1 now1 db b1).2 b2.username =
        some ⟨next_id db, b1.username,
          hash_password sha1 salt1 b1.password, b1.role, now1⟩ := by
      rw [hsnd, hsame]
      unfold get_user_by_username at hfree ⊢
      rw [find?_append_of_none _ hfree]
      simp
    exact register_user_taken sha2 salt2 now2 _ b2 _ hlookup

theorem C8_witness :
    ∃ u : UserDB,
      (register_user (fun _ => "zz".data) ("ab".data) 0 []
        ⟨"carol".data, "secret1".data, "user".data⟩).1 =
        .ok (toUserResponse u) ∧
      register_user (fun _ => "ww".data) ("cd".data) 1
          (register_user (fun _ => "zz".data) ("ab".data) 0 []
            ⟨"carol".data, "secret1".data, "user".data⟩).2
          ⟨"carol".data, "other66".data, "user".data⟩ =
        (.error usernameTaken,
          (register_user (fun _ => "zz".data) ("ab".data) 0 []
            ⟨"carol".data, "secret1".data, "user".data⟩).2) ∧
      usernameTaken = ⟨400, "Username already registered".data⟩ :=
  C8_duplicate_registration (fun _ => "zz".data) (fun _ => "ww".data)
    ("ab".data) ("cd".data) 0 1 []
    ⟨"carol".data, "secret1".data, "user".data⟩
    ⟨"carol".data, "other66".data, "user".data⟩ (by decide) (by decide)

/-- C3: the token expiry window is exactly 60 minutes — for every claim
set `c` issued at instant `t0` the issuer sets `exp = t0 + 60` minutes;
decoding the token 59 minutes after issue succeeds and returns `c`'s
fields, and decoding it 61 minutes after issue fails with the
`ExpiredToken` error, which is distinct from the `InvalidToken` error —
and `get_current_user` likewise surfaces the expiry as its own 401 error,
distinct from the generic credentials error. -/
theorem jwt_decode_create_access_token (hmac : Nat → Claims → Int → Nat)
    (key : Nat) (t0 now : Int) (c : Claims) :
    jwt_decode hmac key (create_access_token hmac key t0 c) now =
      if t0 + 60 * 60 ≤ now then .error .ExpiredToken else .ok c := by
  unfold create_access_token jwt_decode ACCESS_TOKEN_EXPIRE_MIN
  simp

theorem C3_expiry_window_60_minutes (hmac : Nat → Claims → Int → Nat)
    (key : Nat) (db : List UserDB) (c : Claims) (t0 : Int) :
    (create_access_token hmac key t0 c).exp = t0 + 60 * 60 ∧
    jwt_decode hmac key (create_access_token hmac key t0 c)
      (t0 + 59 * 60) = .ok c ∧
    jwt_decode hmac key (create_access_token hmac key t0 c)
      (t0 + 61 * 60) = .error .ExpiredToken ∧
    DecodeError.ExpiredToken ≠ DecodeError.InvalidToken ∧
    get_current_user hmac key db (create_access_token hmac key t0 c)
      (t0 + 61 * 60) = .error expiredTokenError ∧
    expiredTokenError ≠ credentialsException := by
  have hexp : jwt_decode hmac key (create_access_token hmac key t0 c)
      (t0 + 61 * 60) = .error .ExpiredToken := by
    rw [jwt_decode_create_access_token, if_pos (by omega)]
  refine ⟨rfl, ?_, hexp, by decide, ?_, by decide⟩
  · rw [jwt_decode_create_access_token, if_neg (by omega)]
  · simp only [get_current_user, hexp]

/-- C5 counterexample: the claim requires a `UserNotFound` error distinct
from the `InvalidToken` error. With a token of valid signature, not yet
expired, whose subject `ghost` is absent from the (empty) store,
`get_current_user` returns exactly `credentialsException` — and a token
with a broken signature produces that very same error value: the two
failures are indistinguishable to the caller, refuting the claimed
distinctness at this concrete input. -/
theorem C5_counterexample :
    jwt_decode (fun _ _ _ => 0) 0
      (create_access_token (fun _ _ _ => 0) 0 0
        ⟨some ("ghost".data), "user".data, 1⟩) 60 =
      .ok ⟨some ("ghost".data), "user".data, 1⟩ ∧
    get_user_by_username [] ("ghost".data) = none ∧
    get_current_user (fun _ _ _ => 0) 0 []
      (create_access_token (fun _ _ _ => 0) 0 0
        ⟨some ("ghost".data), "user".data, 1⟩) 60 =
      .error credentialsException ∧
    jwt_decode (fun _ _ _ => 0) 0
      ⟨⟨some ("ghost".data), "user".data, 1⟩, 3600, 1⟩ 60 =
      .error .InvalidToken ∧
    get_current_user (fun _ _ _ => 0) 0 []
      ⟨⟨some ("ghost".data), "user".data, 1⟩, 3600, 1⟩ 60 =
      .error credentialsException :=
  ⟨rfl, rfl, rfl, rfl, rfl⟩

/-- C5 amended: if a presented token has a valid signature and is
unexpired but its subject username no longer resolves to a user in the
store, session resolution fails with the same generic 401
`Could not validate credentials` error that is raised for invalid tokens;
the code defines no distinct `UserNotFound` error. -/
theorem C5_user_not_found_same_error_as_invalid
    (hmac : Nat → Claims → Int → Nat) (key : Nat) (db : List UserDB)
    (tok : Token) (now : Int) (uname : Str)
    (hsig : tok.sig = hmac key tok.claims tok.exp)
    (hunexpired : now < tok.exp)
    (hsub : tok.claims.sub = some uname)
    (hmiss : get_user_by_username db uname = none) :
    get_current_user hmac key db tok now = .error credentialsException ∧
    (∀ tok' : Token, tok'.sig ≠ hmac key tok'.claims tok'.exp →
      get_current_user hmac key db tok' now = .error credentialsException) := by
  constructor
  · have hdec : jwt_decode hmac key tok now = .ok tok.claims := by
      unfold jwt_decode
      rw [if_pos hsig, if_neg (by omega)]
    simp only [get_current_user, hdec, hsub, hmiss]
  · intro tok' hbad
    have hdec : jwt_decode hmac key tok' now = .error .InvalidToken := by
      unfold jwt_decode
      rw [if_neg hbad]
    simp only [get_current_user, hdec]

theorem C5_witness :
    get_current_user (fun _ _ _ => 7) 3
      [⟨1, "alice".data, "s$zz".data, "user".data, 0⟩]
      ⟨⟨some ("bob".data), "user".data, 2⟩, 3600, 7⟩ 1800 =
      .error credentialsException :=
  (C5_user_not_found_same_error_as_invalid (fun _ _ _ => 7) 3
    [⟨1, "alice".data, "s$zz".data, "user".data, 0⟩]
    ⟨⟨some ("bob".data), "user".data, 2⟩, 3600, 7⟩ 1800 ("bob".data)
    rfl (by decide) rfl (by decide)).1

end TodoApp
